import Mathlib

/-!
Shallow embedding of the pitchfork-2025 scraper (Python sources under
`src/`) together with theorems settling the frozen claims about it.

The embedding models Python values as an inductive `PyVal` (JSON-shaped
data), Python exceptions as `PyErr`, and fallible Python code as
`Except PyErr _`.  Machine floats are modelled exactly as the rationals
representable in IEEE-754 binary64, with explicit round-to-nearest-even.
Each definition carries a comment naming the source function and lines it
is translated from.
-/

namespace Pitchfork

/-- Python exceptions that the modelled code can raise. -/
inductive PyErr where
  /-- `TypeError` (e.g. `"k" in 5`, subscripting a non-dict with a string). -/
  | typeError : PyErr
  /-- `KeyError` from subscripting a dict with a missing key. -/
  | keyError (k : String) : PyErr
  /-- `AttributeError`: the named attribute does not exist on the object/module. -/
  | attributeError (name : String) : PyErr
  /-- `UnboundLocalError`: a local variable referenced before assignment. -/
  | unboundLocalError (name : String) : PyErr
  /-- `IndexError` from indexing a list out of range. -/
  | indexError : PyErr
  /-- `ValueError` (e.g. `float("abc")`). -/
  | valueError : PyErr
deriving DecidableEq, Repr

/-- Python/JSON values as manipulated by the scraper: the payloads are
parsed JSON, so dict keys are strings.  `float` carries the exact rational
value of an IEEE-754 binary64 number. -/
inductive PyVal where
  | none : PyVal
  | bool (b : Bool) : PyVal
  | int (n : Int) : PyVal
  | float (q : ℚ) : PyVal
  | str (s : String) : PyVal
  | list (xs : List PyVal) : PyVal
  | dict (entries : List (String × PyVal)) : PyVal

/-- `headMatches needle l`: `needle` occurs at the very start of `l`. -/
def headMatches : List Char → List Char → Bool
  | [], _ => true
  | _ :: _, [] => false
  | a :: as, b :: bs => a = b && headMatches as bs

/-- `containsSeq needle l`: `needle` occurs contiguously somewhere in `l`. -/
def containsSeq (needle : List Char) : List Char → Bool
  | [] => headMatches needle []
  | b :: bs => headMatches needle (b :: bs) || containsSeq needle bs

/-- Substring test on strings (Python `needle in hay` for `str`). -/
def strContains (hay needle : String) : Bool :=
  containsSeq needle.data hay.data

/-- First value bound to `k` in a Python dict (insertion-ordered assoc list). -/
def dictFind (es : List (String × PyVal)) (k : String) : Option PyVal :=
  match es with
  | [] => Option.none
  | (k2, v) :: rest => if k2 = k then some v else dictFind rest k

/-- `v is None` as a boolean on the value model. -/
def isNone : PyVal → Bool
  | .none => true
  | _ => false

/-- Python truthiness (`bool(x)`): `None`, `False`, `0`, `0.0`, `""`, `[]`,
`{}` are falsy, everything else truthy. -/
def truthy : PyVal → Bool
  | .none => false
  | .bool b => b
  | .int n => n != 0
  | .float q => q != 0
  | .str s => !s.isEmpty
  | .list xs => !xs.isEmpty
  | .dict es => !es.isEmpty

/-- Python equality of a value against a string (used by `k in list`):
only an equal `str` compares equal to a string. -/
def eqStr (v : PyVal) (k : String) : Bool :=
  match v with
  | .str s => s = k
  | _ => false

/-- Python membership `k in v` for a string `k`: key test on dicts, element
test on lists, substring test on strings; `TypeError` on `None`, numbers
and booleans (not iterable). -/
def pyContains (v : PyVal) (k : String) : Except PyErr Bool :=
  match v with
  | .dict es => .ok (es.any fun p => p.1 = k)
  | .list xs => .ok (xs.any fun x => eqStr x k)
  | .str s => .ok (strContains s k)
  | _ => .error .typeError

/-- Python subscript `v[k]` for a string `k`: dict lookup (`KeyError` when
missing); `TypeError` on lists and strings (indices must be integers) and
on every other value. -/
def pySubscript (v : PyVal) (k : String) : Except PyErr PyVal :=
  match v with
  | .dict es =>
    match dictFind es k with
    | some w => .ok w
    | Option.none => .error (.keyError k)
  | _ => .error .typeError

/-- Loop of `dict_lookup` (src/scraper/general.py lines 194-200):
`result = data_dict; for key in keys_tree: if key in result: result =
result[key] else: return None; return result`. -/
def dict_lookup_go : PyVal → List String → Except PyErr PyVal
  | result, [] => .ok result
  | result, k :: ks =>
    match pyContains result k with
    | .error e => .error e
    | .ok true =>
      match pySubscript result k with
      | .error e => .error e
      | .ok v => dict_lookup_go v ks
    | .ok false => .ok .none

/-- `dict_lookup` (src/scraper/general.py lines 158-200).  The entry guard
(line 191) returns `None` when `data_dict is None`, the key list is empty,
or `data_dict` is falsy. -/
def dict_lookup (data_dict : PyVal) (keys_tree : List String) : Except PyErr PyVal :=
  if isNone data_dict || keys_tree.isEmpty || !truthy data_dict then .ok .none
  else dict_lookup_go data_dict keys_tree

/-- Sufficient condition for `dict_lookup` not to raise, mirroring its
traversal: every intermediate value whose membership is consulted is a
dict (the guard cases are always safe). -/
def dictPathSafe : PyVal → List String → Bool
  | _, [] => true
  | .dict es, k :: ks =>
    match dictFind es k with
    | some v => dictPathSafe v ks
    | Option.none => true
  | _, _ :: _ => false

/-! ### ID registry: `scraper.globals` and `get_url_id` -/

/-- Attribute names defined by the module `scraper.globals`
(src/scraper/globals.py): the `threading` import plus the per-namespace
sets/dicts, counters and locks.  Note there is no plain `lock` attribute. -/
def scraper_globals_attrs : List String :=
  ["threading",
   "albums_set", "albums_lock",
   "authors_set", "authors_lock",
   "urls_dict", "urls_id_counter", "urls_lock",
   "artists_dict", "artists_id_counter", "artists_lock",
   "labels_dict", "labels_id_counter", "labels_lock",
   "genres_dict", "genres_id_counter", "genres_lock",
   "keywords_dict", "keywords_id_counter", "keywords_lock",
   "entities_dict", "entities_id_counter", "entities_lock",
   "author_types_dict", "author_types_id_counter", "author_types_lock"]

/-- First binding of `k` in an insertion-ordered dict with `Optional[str]`
keys (the registry dicts are seeded with a `None` key). -/
def keyFind (d : List (Option String × Int)) (k : Option String) : Option Int :=
  match d with
  | [] => Option.none
  | (k2, v) :: rest => if k2 = k then some v else keyFind rest k

/-- Python `k in d` for the registry dicts. -/
def keyHas (d : List (Option String × Int)) (k : Option String) : Bool :=
  (keyFind d k).isSome

/-- Python `d[k] = v`: overwrite the existing binding, else append. -/
def keySet (d : List (Option String × Int)) (k : Option String) (v : Int) :
    List (Option String × Int) :=
  match d with
  | [] => [(k, v)]
  | (k2, w) :: rest => if k2 = k then (k2, v) :: rest else (k2, w) :: keySet rest k v

/-- The URL-namespace registry state: `g.urls_dict` and `g.urls_id_counter`
(src/scraper/globals.py lines 13-14). -/
structure RegState where
  urls_dict : List (Option String × Int)
  urls_id_counter : Int
deriving DecidableEq, Repr

/-- Module-initialisation value of the URL registry:
`urls_dict = {None: 0}`, `urls_id_counter = 1`. -/
def g0 : RegState := ⟨[(Option.none, 0)], 1⟩

/-- Body of `get_url_id` guarded by the lock (src/scraper/general.py lines
51-58), for `return_isnew=True`: check membership, conditionally allocate
from the counter and insert, return `(is_new, url_id)`.  This is the
registry logic assuming the `with g.lock:` statement succeeded; acquiring
the lock itself is modelled by `get_url_id` below. -/
def get_url_id_body (url : Option String) (s : RegState) : (Bool × Int) × RegState :=
  let is_new := !(keyHas s.urls_dict url)
  if is_new then
    let url_id := s.urls_id_counter
    ((true, url_id), ⟨keySet s.urls_dict url url_id, s.urls_id_counter + 1⟩)
  else
    -- key is present here, so the default of `getD` is never used
    ((false, (keyFind s.urls_dict url).getD 0), s)

/-- `get_url_id` (src/scraper/general.py lines 16-58).  Line 50 executes
`with g.lock:`, i.e. it reads the attribute `lock` of the module
`scraper.globals`; if the module does not define it, the call raises
`AttributeError` before touching the registry. -/
def get_url_id (url : Option String) (s : RegState) :
    Except PyErr ((Bool × Int) × RegState) :=
  if scraper_globals_attrs.contains "lock" then .ok (get_url_id_body url s)
  else .error (.attributeError "lock")

/-- URL-namespace part of `__initialize_globals` (src/scraper/db.py lines
234-243): `g.urls_dict` is reassigned from the `urls` table of the store;
no statement of `__initialize_globals` touches `g.urls_id_counter` (or any
other `*_id_counter`), so the counter keeps its module-initialisation
value. -/
def init_globals_urls (store_urls : List (Option String × Int)) (s : RegState) : RegState :=
  { s with urls_dict := store_urls }

/-! ### The author-type registry race (`scrape_authors_type`) -/

/-- Shared state mutated by `scrape_authors_type` (src/scraper/author.py
lines 256-262): `g.author_types_dict` and `g.author_types_id_counter`
(src/scraper/globals.py lines 37-38). -/
structure ATState where
  author_types_dict : List (Option String × Int)
  author_types_id_counter : Int
deriving DecidableEq, Repr

/-- Module-initialisation value: `author_types_dict = {None: 0}`, counter 1. -/
def at0 : ATState := ⟨[(Option.none, 0)], 1⟩

/-- The individual shared-state accesses performed by one loop iteration of
`scrape_authors_type` for one author-type key (src/scraper/author.py lines
257-262).  The function takes no lock, so between any two of these
operations another thread may run. -/
inductive ATOp where
  /-- line 257: `is_new_author_type = author_type not in g.author_types_dict` -/
  | check : ATOp
  /-- line 259: `g.author_types_dict[author_type] = g.author_types_id_counter`
  (executed only when the thread observed `is_new`) -/
  | assign : ATOp
  /-- line 260: `g.author_types_id_counter += 1` (only when `is_new`) -/
  | incr : ATOp
  /-- line 262: `author_type_id = g.author_types_dict[author_type]` -/
  | readId : ATOp
deriving DecidableEq, Repr

/-- One thread executing the registry sequence: remaining operations plus
its local `is_new_author_type` and the id it read. -/
structure ATThread where
  todo : List ATOp
  is_new : Bool
  seen_id : Int
deriving DecidableEq, Repr

/-- The operation sequence of one loop iteration (lines 257-262). -/
def atProg : List ATOp := [.check, .assign, .incr, .readId]

/-- A thread that has not started yet. -/
def atThread0 : ATThread := ⟨atProg, false, 0⟩

/-- Execute the next shared-state operation of one thread, for key `k`. -/
def atStep (k : Option String) (s : ATState) (t : ATThread) : ATState × ATThread :=
  match t.todo with
  | [] => (s, t)
  | op :: rest =>
    match op with
    | .check =>
      (s, { t with todo := rest, is_new := !(keyHas s.author_types_dict k) })
    | .assign =>
      if t.is_new then
        ({ s with author_types_dict := keySet s.author_types_dict k s.author_types_id_counter },
         { t with todo := rest })
      else (s, { t with todo := rest })
    | .incr =>
      if t.is_new then
        ({ s with author_types_id_counter := s.author_types_id_counter + 1 },
         { t with todo := rest })
      else (s, { t with todo := rest })
    | .readId =>
      (s, { t with todo := rest, seen_id := (keyFind s.author_types_dict k).getD 0 })

/-- Run two racing threads under an explicit schedule (`false` = thread 1
takes the next step, `true` = thread 2). -/
def atRun (k : Option String) : List Bool → ATState × ATThread × ATThread → ATState × ATThread × ATThread
  | [], st => st
  | false :: rest, (s, t1, t2) =>
    let (s2, t1b) := atStep k s t1
    atRun k rest (s2, t1b, t2)
  | true :: rest, (s, t1, t2) =>
    let (s2, t2b) := atStep k s t2
    atRun k rest (s2, t1, t2b)

/-! ### Event log entries -/

/-- Message payload of a logged `ScrapingEvent` in the fetch layer. -/
inductive Msg where
  /-- `traceback.format_exc()` -/
  | traceback : Msg
  /-- `page.status_code` -/
  | statusCode (n : Nat) : Msg
  /-- the literal `"No Response"` -/
  | noResponse : Msg
deriving DecidableEq, Repr

/-- A `ScrapingEvent` row as produced by `db.log_event` (timestamp omitted:
it is wall-clock time). -/
structure Event where
  process : String
  success : Int
  message : Msg
deriving DecidableEq, Repr

/-! ### Persistence adapter: `execute_command` / `insert_named_tuple` -/

/-- The `while True` retry loop of `execute_command` (src/scraper/db.py
lines 409-420): attempt `i` either succeeds (`execOk i = true`; commit and
return) or raises `sqlite3.DatabaseError`, which is caught, slept on, and
retried forever.  `fuel` bounds the number of loop iterations we observe;
`none` means the loop has not returned within that many iterations.  The
result value counts the attempts made before returning. -/
def execute_command_loop (execOk : Nat → Bool) : Nat → Nat → Option Nat
  | _, 0 => Option.none
  | i, fuel + 1 => if execOk i then some i else execute_command_loop execOk (i + 1) fuel

/-- `insert_named_tuple` (src/scraper/db.py lines 422-477): a `None` row
returns immediately; otherwise it calls `execute_command`.  Its
`except sqlite3.DatabaseError` handler would log one event, but
`execute_command` catches `sqlite3.DatabaseError` itself and never
re-raises it, so the only outcomes are success (no event) or
non-termination.  Result: the list of events logged, `none` when still
inside `execute_command` after `fuel` iterations. -/
def insert_named_tuple_run (execOk : Nat → Bool) (row : Option String) (fuel : Nat) :
    Option (List Event) :=
  match row with
  | Option.none => some []
  | some _ =>
    match execute_command_loop execOk 0 fuel with
    | some _ => some []
    | Option.none => Option.none

/-- `insert_named_tuples` (src/scraper/db.py lines 478-513): insert each
non-`None` row in order; the batch only reaches a row once every earlier
row's `insert_named_tuple` has returned. -/
def insert_named_tuples_run (execOk : Nat → Bool) :
    List (Option String) → Nat → Option (List Event)
  | [], _ => some []
  | r :: rs, fuel =>
    match insert_named_tuple_run execOk r fuel with
    | Option.none => Option.none
    | some evs =>
      match insert_named_tuples_run execOk rs fuel with
      | Option.none => Option.none
      | some evs2 => some (evs ++ evs2)

/-! ### Resilient fetcher: `parse_url` -/

/-- Outcome of one `requests.get` attempt: a transport exception, or a
response with a status code and body. -/
inductive Attempt where
  | exn : Attempt
  | resp (status : Nat) (body : String) : Attempt
deriving DecidableEq, Repr

/-- The event logged on line 148 / line 153 of src/scraper/general.py. -/
def connFailed (m : Msg) : Event := { process := "Connection failed", success := 0, message := m }

/-- Observable result of the fetch loop: last response held in `page`,
events logged, sleeps performed, placeholder URL rows inserted. -/
structure FetchOut where
  page : Option (Nat × String)
  events : List Event
  sleeps : Nat
  placeholders : Nat
deriving DecidableEq, Repr

/-- The retry loop of `parse_url` (src/scraper/general.py lines 139-150):
attempt `i` of `rem` remaining.  A 200 response breaks out; a non-200
response just overwrites `page` and continues (no event, no sleep); a
transport exception inserts a placeholder row when `is_new`, logs one
`"Connection failed"` event with the traceback, and sleeps. -/
def parse_url_go (att : Nat → Attempt) (is_new : Bool) :
    Nat → Nat → Option (Nat × String) → List Event → Nat → Nat → FetchOut
  | _, 0, page, evs, slp, plc => ⟨page, evs, slp, plc⟩
  | i, rem + 1, page, evs, slp, plc =>
    match att i with
    | .exn =>
      parse_url_go att is_new (i + 1) rem page (evs ++ [connFailed .traceback]) (slp + 1)
        (plc + if is_new then 1 else 0)
    | .resp c body =>
      if c = 200 then ⟨some (c, body), evs, slp, plc⟩
      else parse_url_go att is_new (i + 1) rem (some (c, body)) evs slp plc

/-- Observable result of `parse_url`: returned soup (modelled as the page
body handed to `BeautifulSoup`), events, sleeps, placeholder rows. -/
structure ParsedOut where
  soup : Option String
  events : List Event
  sleeps : Nat
  placeholders : Nat
deriving DecidableEq, Repr

/-- `parse_url` (src/scraper/general.py lines 88-156): line 137 calls
`get_url_id(url, return_isnew=True)` — whose first statement is
`with g.lock:`, so any exception it raises propagates out of `parse_url`
(there is no `try` around line 137).  On success, run the retry loop, then
either return the parsed document (status 200) or log one final
`"Connection failed"` event whose message is the last status code seen, or
`"No Response"` when no response was ever obtained, and return `None`. -/
def parse_url (att : Nat → Attempt) (num_retrys : Nat) (url : Option String) (st : RegState) :
    Except PyErr (ParsedOut × RegState) :=
  match get_url_id url st with
  | .error e => .error e
  | .ok ((is_new, _url_id), st2) =>
    let r := parse_url_go att is_new 0 num_retrys Option.none [] 0 0
    match r.page with
    | some (c, body) =>
      if c = 200 then .ok (⟨some body, r.events, r.sleeps, r.placeholders⟩, st2)
      else .ok (⟨Option.none, r.events ++ [connFailed (.statusCode c)], r.sleeps, r.placeholders⟩, st2)
    | Option.none =>
      .ok (⟨Option.none, r.events ++ [connFailed .noResponse], r.sleeps, r.placeholders⟩, st2)

/-- `scrape_json_data` for album reviews (src/scraper/album.py lines
589-652): line 631 calls `general.parse_url` with no `try` around it, so
any exception `parse_url` raises propagates out.  When `parse_url`
returns `None`, log exactly one event with process
`"Couldn't stablish connection"` (sic, line 635) and return nothing;
otherwise run the two JSON extractions, logging one event when either
fails.  The extraction functions themselves are passed as parameters
(they parse the page body and are irrelevant to the failure paths). -/
def scrape_json_data_model (att : Nat → Attempt) (num_retrys : Nat) (url : Option String)
    (st : RegState) (extractP extractL : String → Except PyErr PyVal) :
    Except PyErr (Option (PyVal × PyVal) × List Event) :=
  match parse_url att num_retrys url st with
  | .error e => .error e
  | .ok (r, _) =>
    match r.soup with
    | Option.none =>
      .ok (Option.none, r.events ++ [⟨"Couldn\x27t stablish connection", 0, .traceback⟩])
    | some content =>
      match extractP content with
      | .error _ =>
        .ok (Option.none, r.events ++ [⟨"Failed at parsing json preload data", 0, .traceback⟩])
      | .ok jp =>
        match extractL content with
        | .error _ =>
          .ok (Option.none, r.events ++ [⟨"Failed at parsing json linked data", 0, .traceback⟩])
        | .ok jl => .ok (some (jp, jl), r.events)

/-- The album batch retry loop of src/Scrape_Pitchfork_Sitemap.py lines
66-71: `retries = 10; while len(failed) and retries > 0: run the batch;
failed = re-query; retries -= 1`.  `runPass` re-runs the batch against the
store, `query` is the `query_failed_urls` selection.  The result counts
the extra passes executed. -/
def album_retry_loop {σ υ : Type} (runPass : σ → σ) (query : σ → List υ) :
    List υ → σ → Nat → Nat
  | _, _, 0 => 0
  | failed, s, r + 1 =>
    if failed.isEmpty then 0
    else
      let s2 := runPass s
      1 + album_retry_loop runPass query (query s2) s2 r

/-- `query_failed_urls` (src/Scrape_Pitchfork_Sitemap.py lines 51-60):
select the urls with `is_album = 1` whose id carries an event with process
`"Couldn't stablish connection"` (sic) in the event log. -/
def query_failed_urls (urls : List (Int × String × Bool)) (eventIds : List (Int × String)) :
    List (Int × String) :=
  (urls.filter fun u =>
    u.2.2 && eventIds.any fun e => e.1 = u.1 && e.2 = "Couldn\x27t stablish connection").map
    fun u => (u.1, u.2.1)

/-! ### Binary64 floats as exact rationals -/

/-- Floor of a rational as an integer (`q.num.fdiv q.den`). -/
def ratFloorZ (q : ℚ) : ℤ := q.num.fdiv q.den

/-- Round a rational to the nearest integer, ties to even. -/
def rne (q : ℚ) : ℤ :=
  let f := ratFloorZ q
  let r := q - (f : ℚ)
  if r < 1 / 2 then f
  else if 1 / 2 < r then f + 1
  else if f % 2 = 0 then f else f + 1

/-- `2 ^ z` as a rational, for an integer exponent. -/
def pow2z (z : ℤ) : ℚ :=
  match z with
  | .ofNat n => ((2 ^ n : ℕ) : ℚ)
  | .negSucc n => 1 / ((2 ^ (n + 1) : ℕ) : ℚ)

/-- Fuel-driven ceiling log2 on naturals: least `k` with `n ≤ 2 ^ k`. -/
def natClog2F : Nat → Nat → Nat
  | 0, _ => 0
  | f + 1, n => if n ≤ 1 then 0 else 1 + natClog2F f ((n + 1) / 2)

/-- Fuel-driven floor log2 on naturals. -/
def natLog2F : Nat → Nat → Nat
  | 0, _ => 0
  | f + 1, n => if n < 2 then 0 else 1 + natLog2F f (n / 2)

/-- Greatest `e` with `2 ^ e ≤ q`, for positive `q`. -/
def ratLog2 (q : ℚ) : ℤ :=
  if 1 ≤ q then (natLog2F (ratFloorZ q).toNat (ratFloorZ q).toNat : ℤ)
  else -(natClog2F (-(ratFloorZ (-q⁻¹))).toNat (-(ratFloorZ (-q⁻¹))).toNat : ℤ)

/-- Round a rational to IEEE-754 binary64 (round to nearest, ties to even;
overflow and subnormals do not occur in the modelled computations). -/
def fp64 (q : ℚ) : ℚ :=
  if q = 0 then 0
  else
    let a := if q < 0 then -q else q
    let e := ratLog2 a
    let m := rne (a * pow2z (52 - e))
    let v := (m : ℚ) * pow2z (e - 52)
    if q < 0 then -v else v

/-- Python `int(x)` on a float: truncation toward zero. -/
def pyIntTrunc (q : ℚ) : ℤ := if 0 ≤ q then ratFloorZ q else -(ratFloorZ (-q))

/-! ### Python coercions used by the album extractor -/

/-- `s * n` string repetition. -/
def strRepeat (s : String) (n : Nat) : String := String.join (List.replicate n s)

/-- Python `v * n` for an int literal `n` (used as `score * 10`):
numeric multiplication (float products round to binary64), sequence
repetition on strings and lists, `TypeError` otherwise. -/
def pyTimesInt (v : PyVal) (n : Int) : Except PyErr PyVal :=
  match v with
  | .int m => .ok (.int (m * n))
  | .bool b => .ok (.int ((if b then 1 else 0) * n))
  | .float q => .ok (.float (fp64 (q * (n : ℚ))))
  | .str s => .ok (.str (strRepeat s n.toNat))
  | .list xs => .ok (.list (List.flatten (List.replicate n.toNat xs)))
  | _ => .error .typeError

/-- Digits of a decimal string as a natural number (`none` if empty or
non-digit). -/
def decDigitsGo : List Char → Nat → Option Nat
  | [], acc => some acc
  | c :: cs, acc =>
    if c.isDigit then decDigitsGo cs (acc * 10 + (c.toNat - 48)) else Option.none

/-- Parse a non-empty all-digit string. -/
def decDigits (s : String) : Option Nat :=
  match s.data with
  | [] => Option.none
  | l => decDigitsGo l 0

/-- Parse a plain non-negative decimal literal `d+` or `d+.d+` (the only
shapes the scraped payloads contain). -/
def parseDecimal (s : String) : Option ℚ :=
  match s.splitOn "." with
  | [a] => (decDigits a).map fun n => (n : ℚ)
  | [a, b] =>
    match decDigits a, decDigits b with
    | some na, some nb => some ((na : ℚ) + (nb : ℚ) / ((10 ^ b.length : ℕ) : ℚ))
    | _, _ => Option.none
  | _ => Option.none

/-- Python `float(x)`: identity on floats, exact on (small) ints, decimal
strings are parsed and rounded to binary64, `ValueError` on other strings,
`TypeError` on non-numeric values. -/
def pyToFloat (v : PyVal) : Except PyErr ℚ :=
  match v with
  | .float q => .ok q
  | .int n => .ok (fp64 (n : ℚ))
  | .bool b => .ok (if b then 1 else 0)
  | .str s =>
    match parseDecimal s with
    | some q => .ok (fp64 q)
    | Option.none => .error .valueError
  | _ => .error .typeError

/-- Python `int(x)`: identity on ints, truncation on floats, decimal-string
parsing, `TypeError` on non-numeric values. -/
def pyToInt (v : PyVal) : Except PyErr ℤ :=
  match v with
  | .int n => .ok n
  | .bool b => .ok (if b then 1 else 0)
  | .float q => .ok (pyIntTrunc q)
  | .str s =>
    match s.toInt? with
    | some n => .ok n
    | Option.none => .error .valueError
  | _ => .error .valueError

/-! ### Album extraction (`__create_album_object`) -/

/-- The `Album` namedtuple (src/scraper/types.py line 26). -/
structure Album where
  album_id : PyVal
  album : PyVal
  publisher : PyVal
  release_year : PyVal
  pitchfork_score : Option ℤ
  is_best_new_music : ℤ
  is_best_new_reissue : ℤ

/-- Python `item.get(k, None)`: `AttributeError` on non-dicts. -/
def pyGet (v : PyVal) (k : String) : Except PyErr PyVal :=
  match v with
  | .dict es => .ok ((dictFind es k).getD .none)
  | _ => .error (.attributeError "get")

/-- The expression `None if (score is None) else int(float(score * 10))`
(src/scraper/album.py line 324). -/
def score_to_int (score : PyVal) : Except PyErr (Option ℤ) :=
  match score with
  | .none => .ok Option.none
  | s =>
    match pyTimesInt s 10 with
    | .error e => .error e
    | .ok p =>
      match pyToFloat p with
      | .error e => .error e
      | .ok q => .ok (some (pyIntTrunc q))

/-- The expression `0 if (v is None) else int(v)` (src/scraper/album.py
lines 325-326). -/
def int_or_zero (v : PyVal) : Except PyErr ℤ :=
  match v with
  | .none => .ok 0
  | w => pyToInt w

/-- `__create_album_object` (src/scraper/album.py lines 270-326): read
`publisher`, `releaseYear` with `.get`, the rating fields with
`dict_lookup`, then build the `Album` namedtuple; falsy publisher/year
normalize to `None`, a missing score yields `None`, missing flags default
to `0`. -/
def create_album_object (item : PyVal) : Except PyErr Album :=
  match pyGet item "publisher" with
  | .error e => .error e
  | .ok publisher =>
    match pyGet item "releaseYear" with
    | .error e => .error e
    | .ok year =>
      match dict_lookup item ["musicRating", "score"] with
      | .error e => .error e
      | .ok score =>
        match dict_lookup item ["musicRating", "isBestNewMusic"] with
        | .error e => .error e
        | .ok ibnm =>
          match dict_lookup item ["musicRating", "isBestNewReissue"] with
          | .error e => .error e
          | .ok ibnr =>
            match pyGet item "albumId" with
            | .error e => .error e
            | .ok album_id =>
              match pyGet item "dangerousHed" with
              | .error e => .error e
              | .ok album =>
                match score_to_int score with
                | .error e => .error e
                | .ok ps =>
                  match int_or_zero ibnm with
                  | .error e => .error e
                  | .ok bnm =>
                    match int_or_zero ibnr with
                    | .error e => .error e
                    | .ok bnr =>
                      .ok ⟨album_id, album,
                        (if truthy publisher then publisher else .none),
                        (if truthy year then year else .none),
                        ps, bnm, bnr⟩

/-! ### Review-author extraction (`scrape_authors_data`) -/

/-- The `URL` namedtuple (src/scraper/types.py line 18). -/
structure UrlRow where
  url_id : Int
  url : Option String
  year : PyVal
  month : PyVal
  week : PyVal
  is_review : PyVal
  is_album : PyVal
  is_author : PyVal
  is_artist : PyVal

/-- The `Author` namedtuple (src/scraper/types.py line 38). -/
structure AuthorRow where
  author_id : String
  author : PyVal
  url_id : Int

/-- The `Review_Authors` namedtuple (src/scraper/types.py line 30). -/
structure ReviewAuthorsRow where
  review_id : PyVal
  author_id : PyVal

/-- The shared state touched by `scrape_authors_data`: the URL registry and
`g.authors_set`. -/
structure ScrapeState where
  urls : RegState
  authors_set : List PyVal

/-- Module-initialisation value of `g.authors_set`
(src/scraper/globals.py line 10): `{0, '592604b17fd06e5349102f34'}`. -/
def sState0 : ScrapeState := ⟨g0, [.int 0, .str "592604b17fd06e5349102f34"]⟩

/-- Python set membership of a string among the stored author ids. -/
def setHasStr (set : List PyVal) (s : String) : Bool :=
  set.any fun v => eqStr v s

/-- f-string interpolation `f"...{v}"` (never raises). -/
def pyFmt : PyVal → String
  | .str s => s
  | .int n => toString n
  | .bool b => if b then "True" else "False"
  | .none => "None"
  | .float q => toString q.num ++ "/" ++ toString q.den
  | .list _ => "[...]"
  | .dict _ => "\x7b...\x7d"

/-- Python `v[i]` for an integer index: lists index (`IndexError` out of
range), everything else (incl. `None`) raises `TypeError`. -/
def pyListIndex (v : PyVal) (i : Nat) : Except PyErr PyVal :=
  match v with
  | .list xs =>
    match xs.get? i with
    | some x => .ok x
    | Option.none => .error .indexError
  | _ => .error .typeError

/-- `author_name.strip().replace('  ', ' ')` (src/scraper/album.py line
265): `AttributeError` on non-strings. -/
def pyStripReplace (v : PyVal) : Except PyErr PyVal :=
  match v with
  | .str s => .ok (.str ((s.trim).replace "  " " "))
  | _ => .error (.attributeError "strip")

/-- Loop body of `scrape_authors_data` (src/scraper/album.py lines
253-266), iterating positionally over the split author-id list with the
parallel contributor list `info2`. -/
def authors_loop (info2 : PyVal) (review_id : PyVal) :
    List String → Nat → ScrapeState → List AuthorRow → List UrlRow → List ReviewAuthorsRow →
    Except PyErr ((List AuthorRow × List UrlRow × List ReviewAuthorsRow) × ScrapeState)
  | [], _, st, na, nu, ra => .ok ((na, nu, ra), st)
  | author_id :: rest, i, st, na, nu, ra =>
    match pyListIndex info2 i with
    | .error e => .error e
    | .ok item =>
      match pySubscript item "url" with
      | .error e => .error e
      | .ok uval =>
        let author_url := "https://pitchfork.com" ++ pyFmt uval
        let r0 := get_url_id_body (some author_url) st.urls
        let is_new_url := r0.1.1
        let url_id := r0.1.2
        let urls2 := r0.2
        let nu2 := if is_new_url then
          nu ++ [⟨url_id, some author_url, .none, .none, .none, .int 0, .int 0, .int 1, .int 0⟩]
          else nu
        let ra2 := ra ++ [⟨review_id, .str author_id⟩]
        if setHasStr st.authors_set author_id then
          authors_loop info2 review_id rest (i + 1) { st with urls := urls2 } na nu2 ra2
        else
          match pySubscript item "name" with
          | .error e => .error e
          | .ok namev =>
            match (if truthy namev then pyStripReplace namev else .ok namev) with
            | .error e => .error e
            | .ok name2 =>
              authors_loop info2 review_id rest (i + 1)
                ⟨urls2, st.authors_set ++ [.str author_id]⟩
                (na ++ [⟨author_id, name2, url_id⟩]) nu2 ra2

/-- `scrape_authors_data` (src/scraper/album.py lines 206-268): read the
review id and the comma-separated `authorIds`; when the latter is absent
(`None`), emit one `Review_Authors` row with author id `0` and return with
no new authors and no new urls; otherwise pair each id positionally with
the contributor list. -/
def scrape_authors_data (json_pl : PyVal) (st : ScrapeState) :
    Except PyErr ((List AuthorRow × List UrlRow × List ReviewAuthorsRow) × ScrapeState) :=
  match dict_lookup json_pl ["coreDataLayer", "content", "contentId"] with
  | .error e => .error e
  | .ok review_id =>
    match dict_lookup json_pl ["coreDataLayer", "content", "authorIds"] with
    | .error e => .error e
    | .ok authorids =>
      if isNone authorids then
        .ok (([], [], [⟨review_id, .int 0⟩]), st)
      else
        match authorids with
        | .str s =>
          match dict_lookup json_pl ["review", "contributors", "author", "items"] with
          | .error e => .error e
          | .ok info2 => authors_loop info2 review_id (s.splitOn ",") 0 st [] [] []
        | _ => .error (.attributeError "split")

/-! ### Author bio extraction (`scrape_authors_bio`) -/

/-- The `Author_Bio` namedtuple (src/scraper/types.py line 39). -/
structure AuthorBio where
  author_id : PyVal
  date_pub : PyVal
  revisions : PyVal
  bio : PyVal

/-- The boilerplate phrase of src/scraper/author.py line 124. -/
def legend_when_empy : String := "bio and get latest news stories and articles."

/-- The conditional assignment of the local `bio` (src/scraper/author.py
lines 120-125): `bio` is assigned (`some _`) only when `raw_bio` is not
`None`; an empty or boilerplate string assigns `None` to it. -/
def bioAssign (raw_bio : PyVal) : Except PyErr (Option PyVal) :=
  match raw_bio with
  | .none => .ok Option.none
  | rb =>
    if eqStr rb "" then .ok (some .none)
    else
      match rb with
      | .str s =>
        .ok (some (if strContains s.toLower legend_when_empy then .none else rb))
      | _ => .error (.attributeError "lower")

/-- `scrape_authors_bio` (src/scraper/author.py lines 76-130): try the two
bio payload paths (first non-`None` wins), conditionally assign `bio`,
read `noOfRevisions` and `publishDate`, then build the `Author_Bio`
namedtuple — whose construction reads the local `bio`, raising
`UnboundLocalError` when it was never assigned. -/
def scrape_authors_bio (json_pl : PyVal) (author_id : PyVal) : Except PyErr AuthorBio :=
  match dict_lookup json_pl ["transformed", "head.description"] with
  | .error e => .error e
  | .ok r1 =>
    match (if isNone r1 then dict_lookup json_pl ["transformed", "head.social.description"]
           else .ok r1) with
    | .error e => .error e
    | .ok raw_bio =>
      match bioAssign raw_bio with
      | .error e => .error e
      | .ok bio? =>
        match dict_lookup json_pl ["transformed", "coreDataLayer", "content", "noOfRevisions"] with
        | .error e => .error e
        | .ok noofrevs =>
          match dict_lookup json_pl
              ["transformed", "payment", "negotiation", "content", "publishDate"] with
          | .error e => .error e
          | .ok date_pub =>
            match bio? with
            | some b => .ok ⟨author_id, date_pub, noofrevs, b⟩
            | Option.none => .error (.unboundLocalError "bio")

/-- Entry guard of `dict_lookup` or a dict-only traversal: a sufficient
condition for `dict_lookup` not to raise. -/
def lookupSafe (d : PyVal) (p : List String) : Bool :=
  (isNone d || p.isEmpty || !truthy d) || dictPathSafe d p

/-- A concrete album item carrying the binary64 value of the source rating
`8.2`. -/
def albumItemW : PyVal :=
  .dict [("albumId", .int 101), ("dangerousHed", .str "Great Album"),
         ("musicRating", .dict [("score", .float (fp64 (41 / 5)))])]

/-- The album record `__create_album_object` produces from `albumItemW`. -/
def albumAlbW : Album :=
  ⟨.int 101, .str "Great Album", .none, .none, some 82, 0, 0⟩

/-- A concrete review payload with a review id but no `authorIds` field. -/
def authorsPlW : PyVal :=
  .dict [("coreDataLayer", .dict [("content", .dict [("contentId", .str "rev1")])])]

/-- A concrete author-page payload with neither bio location present. -/
def bioPlW : PyVal := .dict [("x", .int 1)]

theorem dictFind_none_any {es : List (String × PyVal)} {k : String}
    (h : dictFind es k = Option.none) :
    (es.any fun p => p.1 = k) = false := by
  induction es with
  | nil => rfl
  | cons hd tl ih =>
    obtain ⟨k2, v⟩ := hd
    simp only [dictFind] at h
    by_cases hk : k2 = k
    · rw [if_pos hk] at h; cases h
    · rw [if_neg hk] at h
      simp [List.any_cons, hk, ih h]

theorem dictFind_some_any {es : List (String × PyVal)} {k : String} {v : PyVal}
    (h : dictFind es k = some v) :
    (es.any fun p => p.1 = k) = true := by
  induction es with
  | nil => simp [dictFind] at h
  | cons hd tl ih =>
    obtain ⟨k2, w⟩ := hd
    simp only [dictFind] at h
    by_cases hk : k2 = k
    · simp [List.any_cons, hk]
    · rw [if_neg hk] at h
      simp [List.any_cons, hk, ih h]

/-- `dict_lookup_go` never raises on inputs whose traversal only meets dicts. -/
theorem dict_lookup_go_safe (p : List String) :
    ∀ d : PyVal, dictPathSafe d p = true → ∃ r, dict_lookup_go d p = .ok r := by
  induction p with
  | nil => intro d _; exact ⟨d, rfl⟩
  | cons k ks ih =>
    intro d hs
    match d with
    | .none | .bool _ | .int _ | .float _ | .str _ | .list _ =>
      simp [dictPathSafe] at hs
    | .dict es =>
      simp only [dictPathSafe] at hs
      cases hf : dictFind es k with
      | none =>
        refine ⟨.none, ?_⟩
        simp [dict_lookup_go, pyContains, dictFind_none_any hf]
      | some v =>
        rw [hf] at hs
        obtain ⟨r, hr⟩ := ih v hs
        refine ⟨r, ?_⟩
        simp only [dict_lookup_go, pyContains, dictFind_some_any hf, pySubscript, hf]
        exact hr

/-- C1: seeding the registry from a store whose URL namespace holds the
pair `("u", 5)` (plus the null sentinel) and then requesting the existing
key does return `is_new = false` with the stored id 5, but
`__initialize_globals` leaves `urls_id_counter` at its module value 1, so
a previously unseen key is allocated the surrogate id 1, which is NOT
strictly greater than the maximum persisted id 5 — the claim fails on the
code. -/
theorem C1_reload_counter_not_seeded :
    (get_url_id_body (some "u")
        (init_globals_urls [(Option.none, 0), (some "u", 5)] g0)).1 = (false, 5) ∧
    (init_globals_urls [(Option.none, 0), (some "u", 5)] g0).urls_id_counter = 1 ∧
    (get_url_id_body (some "v")
        (init_globals_urls [(Option.none, 0), (some "u", 5)] g0)).1 = (true, 1) ∧
    ¬ (5 : Int) <
      (get_url_id_body (some "v")
        (init_globals_urls [(Option.none, 0), (some "u", 5)] g0)).1.2 := by
  refine ⟨rfl, rfl, rfl, ?_⟩
  decide

/-- C2: `get_url_id` is claimed never to raise, but its first statement
`with g.lock:` reads the attribute `lock` of the module `scraper.globals`,
which defines only the per-namespace locks; every call therefore raises
`AttributeError` before touching the registry. -/
theorem C2_get_url_id_always_raises (url : Option String) (s : RegState) :
    get_url_id url s = .error (.attributeError "lock") := by
  have h : scraper_globals_attrs.contains "lock" = false := by decide
  unfold get_url_id
  rw [h]
  rfl

/-- C3: `scrape_authors_type` runs the check-membership /
conditionally-insert / conditionally-increment / read-id sequence on the
author-type registry with no lock at all, so under the interleaving
check-check-assign-incr-read-assign-incr-read of two threads racing on the
same unseen key both threads observe `is_new = true` and they obtain the
distinct surrogate ids 1 and 2 — the claim fails on the code. -/
theorem C3_author_type_race :
    (atRun (some "Editor") [false, true, false, false, false, true, true, true]
        (at0, atThread0, atThread0)).2.1.is_new = true ∧
    (atRun (some "Editor") [false, true, false, false, false, true, true, true]
        (at0, atThread0, atThread0)).2.2.is_new = true ∧
    (atRun (some "Editor") [false, true, false, false, false, true, true, true]
        (at0, atThread0, atThread0)).2.1.seen_id = 1 ∧
    (atRun (some "Editor") [false, true, false, false, false, true, true, true]
        (at0, atThread0, atThread0)).2.2.seen_id = 2 ∧
    (atRun (some "Editor") [false, true, false, false, false, true, true, true]
        (at0, atThread0, atThread0)).2.1.seen_id ≠
      (atRun (some "Editor") [false, true, false, false, false, true, true, true]
        (at0, atThread0, atThread0)).2.2.seen_id := by
  refine ⟨rfl, rfl, rfl, rfl, ?_⟩
  decide

theorem execute_command_loop_allfail (i fuel : Nat) :
    execute_command_loop (fun _ => false) i fuel = Option.none := by
  induction fuel generalizing i with
  | zero => rfl
  | succ n ih => simpa [execute_command_loop] using ih (i + 1)

/-- C4: a record whose insert fails persistently does NOT produce one
logged event and a completed batch: `execute_command`'s `while True` loop
catches `sqlite3.DatabaseError` and retries forever, never returning
within any number of iterations, so a batch headed by such a record never
terminates (and `insert_named_tuple`'s logging handler is unreachable). -/
theorem C4_persistent_failure_hangs_batch (row : String) (rest : List (Option String))
    (fuel : Nat) :
    execute_command_loop (fun _ => false) 0 fuel = Option.none ∧
    insert_named_tuples_run (fun _ => false) (some row :: rest) fuel = Option.none := by
  refine ⟨execute_command_loop_allfail 0 fuel, ?_⟩
  simp [insert_named_tuples_run, insert_named_tuple_run, execute_command_loop_allfail 0 fuel]

/-- C5: the claimed flaky-fetch behavior (parsed document returned,
exactly two `"Connection failed"` events, one sleep per failed attempt)
never occurs: every `parse_url` call raises `AttributeError` at its
`get_url_id` call (general.py line 137 reaching the missing `g.lock` at
line 50) before the first fetch attempt, for every attempt stream —
including one whose first two attempts raise and whose third returns 200 —
so no document is ever returned and no event is ever logged. -/
theorem C5_fetch_raises_before_first_attempt (att : Nat → Attempt) (n : Nat)
    (url : Option String) (st : RegState) :
    parse_url att n url st = .error (.attributeError "lock") := by
  have h : scraper_globals_attrs.contains "lock" = false := by decide
  unfold parse_url get_url_id
  rw [h]
  rfl

theorem filter_replicate_false {α : Type} (p : α → Bool) (a : α) (h : p a = false) (n : Nat) :
    (List.replicate n a).filter p = [] := by
  induction n with
  | zero => rfl
  | succ m ih => simp [List.replicate_succ, List.filter_cons, h, ih]

theorem parse_url_go_allexn (att : Nat → Attempt) (h : ∀ i, att i = .exn) (b : Bool) :
    ∀ (rem i : Nat) (page : Option (Nat × String)) (evs : List Event) (slp plc : Nat),
    ∃ slp2 plc2,
      parse_url_go att b i rem page evs slp plc =
        ⟨page, evs ++ List.replicate rem (connFailed .traceback), slp2, plc2⟩ := by
  intro rem
  induction rem with
  | zero =>
    intro i page evs slp plc
    exact ⟨slp, plc, by simp [parse_url_go]⟩
  | succ m ih =>
    intro i page evs slp plc
    obtain ⟨s2, p2, hrec⟩ :=
      ih (i + 1) page (evs ++ [connFailed .traceback]) (slp + 1) (plc + if b then 1 else 0)
    refine ⟨s2, p2, ?_⟩
    rw [show (parse_url_go att b i (m + 1) page evs slp plc) =
      (match att i with
       | .exn =>
         parse_url_go att b (i + 1) m page (evs ++ [connFailed .traceback]) (slp + 1)
           (plc + if b then 1 else 0)
       | .resp c body =>
         if c = 200 then ⟨some (c, body), evs, slp, plc⟩
         else parse_url_go att b (i + 1) m (some (c, body)) evs slp plc) from rfl, h i, hrec]
    simp [List.replicate_succ]

theorem album_retry_loop_le {σ υ : Type} (runPass : σ → σ) (query : σ → List υ) :
    ∀ (r : Nat) (failed : List υ) (s : σ), album_retry_loop runPass query failed s r ≤ r := by
  intro r
  induction r with
  | zero => intro failed s; simp [album_retry_loop]
  | succ m ih =>
    intro failed s
    by_cases hf : failed.isEmpty
    · simp [album_retry_loop, hf]
    · simp only [album_retry_loop, hf, Bool.false_eq_true, if_false]
      have := ih (query (runPass s)) (runPass s)
      omega

/-- C6: the claimed per-item terminal event and ceiling-bounded retrying
never occur: `scrape_json_data` raises `AttributeError` at its
`parse_url` call (album.py line 631, reaching the missing `g.lock`) with
no `try` around it, for every attempt stream — in particular when every
attempt fails transport — so the terminal event of album.py line 635 is
never written (and the process string the code would write there is the
misspelt `"Couldn't stablish connection"`, not the claim's
`"Couldn't establish connection"`); `query_failed_urls` over an event log
with no such events selects nothing, and the batch retry loop with an
empty failed list performs 0 extra passes, exiting immediately rather
than via the 10-retry ceiling. -/
theorem C6_no_terminal_event_no_retries (att : Nat → Attempt) (n : Nat)
    (url : Option String) (st : RegState) (extractP extractL : String → Except PyErr PyVal)
    {σ υ : Type} (runPass : σ → σ) (query : σ → List υ) (s : σ)
    (urls : List (Int × String × Bool)) :
    scrape_json_data_model att n url st extractP extractL = .error (.attributeError "lock") ∧
    query_failed_urls urls [] = [] ∧
    album_retry_loop runPass query [] s 10 = 0 := by
  have h : scraper_globals_attrs.contains "lock" = false := by decide
  refine ⟨?_, ?_, rfl⟩
  · unfold scrape_json_data_model parse_url get_url_id
    rw [h]
    rfl
  · unfold query_failed_urls
    simp

/-- C7: for every album item successfully turned into an `Album` record, a
source rating equal to the binary64 value of `8.2` is stored as
`pitchfork_score = 82` (rating times 10, rounded as machine floats round,
truncated to an integer); a missing rating is stored as `None`, not `0`;
missing publisher and release-year fields normalize to `None`, not `0` or
the empty string; and the best-new-music / best-new-reissue flags default
to `0` when absent. -/
theorem C7_album_normalization (item : PyVal) (alb : Album)
    (h : create_album_object item = .ok alb) :
    (dict_lookup item ["musicRating", "score"] = .ok (.float (fp64 (41 / 5))) →
      alb.pitchfork_score = some 82) ∧
    (dict_lookup item ["musicRating", "score"] = .ok .none →
      alb.pitchfork_score = Option.none) ∧
    (pyGet item "publisher" = .ok .none → alb.publisher = .none) ∧
    (pyGet item "releaseYear" = .ok .none → alb.release_year = .none) ∧
    (dict_lookup item ["musicRating", "isBestNewMusic"] = .ok .none →
      alb.is_best_new_music = 0) ∧
    (dict_lookup item ["musicRating", "isBestNewReissue"] = .ok .none →
      alb.is_best_new_reissue = 0) := by
  unfold create_album_object at h
  cases h1 : pyGet item "publisher" with
  | error e => simp only [h1] at h; exact Except.noConfusion h
  | ok publisher =>
  simp only [h1] at h
  cases h2 : pyGet item "releaseYear" with
  | error e => simp only [h2] at h; exact Except.noConfusion h
  | ok year =>
  simp only [h2] at h
  cases h3 : dict_lookup item ["musicRating", "score"] with
  | error e => simp only [h3] at h; exact Except.noConfusion h
  | ok score =>
  simp only [h3] at h
  cases h4 : dict_lookup item ["musicRating", "isBestNewMusic"] with
  | error e => simp only [h4] at h; exact Except.noConfusion h
  | ok ibnm =>
  simp only [h4] at h
  cases h5 : dict_lookup item ["musicRating", "isBestNewReissue"] with
  | error e => simp only [h5] at h; exact Except.noConfusion h
  | ok ibnr =>
  simp only [h5] at h
  cases h6 : pyGet item "albumId" with
  | error e => simp only [h6] at h; exact Except.noConfusion h
  | ok album_id =>
  simp only [h6] at h
  cases h7 : pyGet item "dangerousHed" with
  | error e => simp only [h7] at h; exact Except.noConfusion h
  | ok album =>
  simp only [h7] at h
  cases h8 : score_to_int score with
  | error e => simp only [h8] at h; exact Except.noConfusion h
  | ok ps =>
  simp only [h8] at h
  cases h9 : int_or_zero ibnm with
  | error e => simp only [h9] at h; exact Except.noConfusion h
  | ok bnm =>
  simp only [h9] at h
  cases h10 : int_or_zero ibnr with
  | error e => simp only [h10] at h; exact Except.noConfusion h
  | ok bnr =>
  simp only [h10] at h
  have halb : alb = ⟨album_id, album,
      (if truthy publisher then publisher else .none),
      (if truthy year then year else .none), ps, bnm, bnr⟩ := by
    injection h with h
    exact h.symm
  subst halb
  refine ⟨?_, ?_, ?_, ?_, ?_, ?_⟩
  · intro hs
    have hsc : score = .float (fp64 (41 / 5)) := by
      injection hs with h12
    subst hsc
    have hv : score_to_int (.float (fp64 (41 / 5))) = Except.ok (some (82 : ℤ)) := by
      with_unfolding_all rfl
    have h13 := hv.symm.trans h8
    injection h13 with hps
    exact hps.symm
  · intro hs
    have hsc : score = PyVal.none := by
      injection hs with h12
    subst hsc
    have hv : score_to_int PyVal.none = Except.ok (Option.none : Option ℤ) := rfl
    have h13 := hv.symm.trans h8
    injection h13 with hps
    exact hps.symm
  · intro hs
    have hp : publisher = PyVal.none := by
      injection hs with h12
    subst hp
    rfl
  · intro hs
    have hp : year = PyVal.none := by
      injection hs with h12
    subst hp
    rfl
  · intro hs
    have hp : ibnm = PyVal.none := by
      injection hs with h12
    subst hp
    have hv : int_or_zero PyVal.none = Except.ok (0 : ℤ) := rfl
    have h13 := hv.symm.trans h9
    injection h13 with hb
    exact hb.symm
  · intro hs
    have hp : ibnr = PyVal.none := by
      injection hs with h12
    subst hp
    have hv : int_or_zero PyVal.none = Except.ok (0 : ℤ) := rfl
    have h13 := hv.symm.trans h10
    injection h13 with hb
    exact hb.symm

/-- C7 (witness): the theorem applied to a concrete item whose rating is
the binary64 value of `8.2` and whose publisher, year and flags are
absent. -/
theorem C7_witness :
    create_album_object albumItemW = .ok albumAlbW ∧
    dict_lookup albumItemW ["musicRating", "score"] = .ok (.float (fp64 (41 / 5))) ∧
    pyGet albumItemW "publisher" = .ok .none ∧
    (albumAlbW.pitchfork_score = some 82 ∧
     albumAlbW.publisher = .none ∧
     albumAlbW.is_best_new_music = 0) :=
  ⟨by with_unfolding_all rfl, rfl, rfl,
   (C7_album_normalization albumItemW albumAlbW (by with_unfolding_all rfl)).1 rfl,
   (C7_album_normalization albumItemW albumAlbW (by with_unfolding_all rfl)).2.2.1 rfl,
   (C7_album_normalization albumItemW albumAlbW (by with_unfolding_all rfl)).2.2.2.2.1 rfl⟩

/-- C8: a review payload whose `authorIds` field is absent (the lookup
yields `None`) makes `scrape_authors_data` emit exactly one
`Review_Authors` junction row referencing surrogate author id `0`, with no
new author records, no new URL records, and no registry mutation. -/
theorem C8_missing_authorIds (json_pl : PyVal) (st : ScrapeState) (rid : PyVal)
    (h1 : dict_lookup json_pl ["coreDataLayer", "content", "contentId"] = .ok rid)
    (h2 : dict_lookup json_pl ["coreDataLayer", "content", "authorIds"] = .ok .none) :
    scrape_authors_data json_pl st = .ok (([], [], [⟨rid, .int 0⟩]), st) := by
  unfold scrape_authors_data
  rw [h1, h2]
  rfl

/-- C8 (witness): the theorem applied to a concrete payload carrying only
a review id. -/
theorem C8_witness :
    dict_lookup authorsPlW ["coreDataLayer", "content", "contentId"] = .ok (.str "rev1") ∧
    dict_lookup authorsPlW ["coreDataLayer", "content", "authorIds"] = .ok .none ∧
    scrape_authors_data authorsPlW sState0 = .ok (([], [], [⟨.str "rev1", .int 0⟩]), sState0) :=
  ⟨rfl, rfl, C8_missing_authorIds authorsPlW sState0 (.str "rev1") rfl rfl⟩

/-- C9 (amended): `dict_lookup` returns the value found at the end of the
path, or `None`, and never raises, PROVIDED every intermediate value whose
membership it consults is a dict (the guard cases — `None`, empty path,
falsy input — are likewise safe); when an intermediate value is of a
non-dict shape the function can instead raise `TypeError` (see the
counterexample theorem). -/
theorem C9_dict_lookup_total_on_dict_paths (d : PyVal) (p : List String)
    (h : lookupSafe d p = true) : ∃ r, dict_lookup d p = .ok r := by
  unfold lookupSafe at h
  by_cases hg : (isNone d || p.isEmpty || !truthy d) = true
  · refine ⟨.none, ?_⟩
    unfold dict_lookup
    rw [hg]
    rfl
  · have hg2 : (isNone d || p.isEmpty || !truthy d) = false := by
      cases hb : (isNone d || p.isEmpty || !truthy d)
      · rfl
      · exact absurd hb hg
    rw [Bool.or_eq_true] at h
    rcases h with h | h
    · exact absurd h hg
    · obtain ⟨r, hr⟩ := dict_lookup_go_safe p d h
      refine ⟨r, ?_⟩
      unfold dict_lookup
      rw [hg2]
      exact hr

/-- C9 (counterexample): with an intermediate value of the wrong shape —
the integer `5` under key `"a"` — `dict_lookup` raises `TypeError`
(`"b" in 5` is not a valid membership test) instead of returning `None`,
refuting the claim that it never fails. -/
theorem C9_counterexample_wrong_shape_raises :
    dict_lookup (.dict [("a", .int 5)]) ["a", "b"] = .error .typeError := rfl

/-- C9 (witness): the amended theorem applied to a nested dict. -/
theorem C9_witness :
    lookupSafe (.dict [("user", .dict [("name", .str "Alice")])]) ["user", "name"] = true ∧
    ∃ r, dict_lookup (.dict [("user", .dict [("name", .str "Alice")])]) ["user", "name"] = .ok r :=
  ⟨rfl, C9_dict_lookup_total_on_dict_paths _ _ rfl⟩

/-- C10: when both bio payload locations are absent (both lookups yield
`None`) and the revision/date lookups succeed, `scrape_authors_bio`
raises `UnboundLocalError` — its local `bio` is never assigned before the
final `Author_Bio(...)` expression reads it — instead of returning an
`Author_Bio` record with a null bio, so the caller logs the failure and
inserts no `author_bios` row. -/
theorem C10_missing_bio_raises (json_pl : PyVal) (aid rv dp : PyVal)
    (h1 : dict_lookup json_pl ["transformed", "head.description"] = .ok .none)
    (h2 : dict_lookup json_pl ["transformed", "head.social.description"] = .ok .none)
    (h3 : dict_lookup json_pl ["transformed", "coreDataLayer", "content", "noOfRevisions"] =
      .ok rv)
    (h4 : dict_lookup json_pl ["transformed", "payment", "negotiation", "content", "publishDate"] =
      .ok dp) :
    scrape_authors_bio json_pl aid = .error (.unboundLocalError "bio") := by
  unfold scrape_authors_bio
  rw [h1, h2, h3, h4]
  rfl

/-- C10 (witness): the theorem applied to a concrete payload with neither
bio location present. -/
theorem C10_witness :
    dict_lookup bioPlW ["transformed", "head.description"] = .ok .none ∧
    dict_lookup bioPlW ["transformed", "head.social.description"] = .ok .none ∧
    dict_lookup bioPlW ["transformed", "coreDataLayer", "content", "noOfRevisions"] = .ok .none ∧
    dict_lookup bioPlW ["transformed", "payment", "negotiation", "content", "publishDate"] =
      .ok .none ∧
    scrape_authors_bio bioPlW (.str "a1") = .error (.unboundLocalError "bio") :=
  ⟨rfl, rfl, rfl, rfl, C10_missing_bio_raises bioPlW (.str "a1") .none .none rfl rfl rfl rfl⟩

end Pitchfork
